import Mathlib

/-!
Verification of the UAV interception control core (savasan_iha).

This file gives a shallow embedding, in Lean 4, of the parts of the Python
source that the verified properties are about:

* `src/detection/qr/qr_processor.py`        — QR command extraction and cooldown
* `src/vision/mission/mission_controller.py` — guarded mission state machine
* `src/vision/mission/mission_manager.py`    — priority mission bookkeeping
* `src/vision/targeting/target_lock.py`      — hysteresis lock evaluator
* `src/vision/targeting/camera_controller.py`— PID primitive
* `src/detection/tracking/kalman_tracker.py` — multi-object tracker
* `src/vision/mission/escape_controller.py`,
  `src/vision/mission/kamikaze_controller.py`,
  `src/vision/safety/no_fly_zone_controller.py` — maneuver generators

Modelling conventions:
* Python floats are modelled by `ℚ` (the code does exact arithmetic on
  values read from configuration and from wall-clock subtraction; no claim
  depends on rounding).
* `time.time()` reads are threaded through as explicit `now : ℚ` arguments;
  wall-clock timestamps are positive reals, which matters where the Python
  code tests a timestamp for truthiness (`if not self.lock_start_time`).
* `np.linalg.norm` (and the square root inside the distance tests) is
  modelled by an explicit square-root oracle `sq : ℚ → ℚ` passed to the
  embedded functions; the theorems assume of it only what they need
  (typically `sq 0 = 0`, since `np.linalg.norm` of the zero vector is `0.0`),
  and witnesses instantiate it on perfect squares.
* Python dicts keyed by strings or ints are modelled by association lists
  in insertion order, which is also Python's iteration order.
* Frame drawing (`cv2.rectangle`, `cv2.putText`, ...) has no effect on any
  state or returned status and is omitted.
-/

/-! ## Association-list dictionaries -/

/-- Look up a key in an insertion-ordered dictionary. -/
def dictGet {α β : Type} [DecidableEq α] : List (α × β) → α → Option β
  | [], _ => none
  | (k, v) :: rest, key => if k = key then some v else dictGet rest key

/-- `d[key] = v` on an insertion-ordered dictionary: overwrite in place if the
key exists, else append. -/
def dictSet {α β : Type} [DecidableEq α] (d : List (α × β)) (key : α) (v : β) :
    List (α × β) :=
  match d with
  | [] => [(key, v)]
  | (k, w) :: rest =>
    if k = key then (k, v) :: rest else (k, w) :: dictSet rest key v

/-- Delete a key from a dictionary (Python `del d[key]`). -/
def dictDel {α β : Type} [DecidableEq α] (d : List (α × β)) (key : α) :
    List (α × β) :=
  match d with
  | [] => []
  | (k, w) :: rest => if k = key then rest else (k, w) :: dictDel rest key

/-- JSON-ish parameter maps: values may themselves be `None`
(`parameters.get('target_id')` can store `None` into `mission_data`). -/
def ParamMap : Type := List (String × Option String)

instance : DecidableEq ParamMap := by
  unfold ParamMap
  infer_instance

/-- Python `dict.get(key)`: the stored value, or `None` when absent. -/
def ParamMap.pget (m : ParamMap) (key : String) : Option String :=
  (dictGet m key).join

/-- Python `dict.update(other)`: set every key of `other` in order. -/
def ParamMap.pupdate (m other : ParamMap) : ParamMap :=
  other.foldl (fun acc kv => dictSet acc kv.1 kv.2) m

/-! ## QR commands (`qr_processor.py`) -/

/-- `QRCommand` enum from `qr_processor.py`. -/
inductive QRCommand where
  | KAMIKAZE
  | ESCAPE
  | LOCK
  | MISSION_UPDATE
  | STATUS_REQUEST
deriving DecidableEq, Repr

/-- The command dictionary built by `QRProcessor.process_qr_data`
(the `raw_data` field, an echo of the parsed JSON, is not used by any
consumer modelled here and is omitted). -/
structure CommandInfo where
  type : QRCommand
  timestamp : ℚ
  parameters : ParamMap
deriving DecidableEq

/-! ## Mission state machine (`mission_controller.py`) -/

/-- `MissionState` enum from `mission_controller.py`. -/
inductive MissionState where
  | IDLE
  | SEARCHING
  | TRACKING
  | LOCKING
  | LOCKED
  | KAMIKAZE
  | ESCAPING
  | EMERGENCY
deriving DecidableEq, Repr

/-- One entry of `MissionController.state_history`. -/
structure StateRecord where
  state : MissionState
  timestamp : ℚ
  previous_state : Option MissionState
deriving DecidableEq

/-- The mutable state of `MissionController`. -/
structure MissionController where
  current_state : MissionState
  previous_state : Option MissionState
  state_change_time : ℚ
  mission_data : ParamMap
  state_history : List StateRecord
deriving DecidableEq

/-- `MissionController.__init__` (the construction-time `time.time()` read is
the `now` argument). -/
def MissionController.init (now : ℚ) : MissionController where
  current_state := .IDLE
  previous_state := none
  state_change_time := now
  mission_data := []
  state_history := []

/-- `MissionController.update_state`: record the transition if the state
actually changes, keeping only the last 100 history entries. -/
def MissionController.update_state (c : MissionController)
    (new_state : MissionState) (now : ℚ) : MissionController :=
  if new_state ≠ c.current_state then
    let hist := c.state_history ++
      [{ state := new_state, timestamp := now,
         previous_state := some c.current_state }]
    { c with
      previous_state := some c.current_state
      current_state := new_state
      state_change_time := now
      state_history := if hist.length > 100 then hist.drop 1 else hist }
  else c

/-- `MissionController.process_command`: one command per call, guarded by the
current state; returns `true` iff the command was processed. -/
def MissionController.process_command (c : MissionController)
    (command_info : CommandInfo) (now : ℚ) : Bool × MissionController :=
  let parameters := command_info.parameters
  match command_info.type with
  | .KAMIKAZE =>
    if c.current_state = .LOCKED ∨ c.current_state = .TRACKING then
      let c := c.update_state .KAMIKAZE now
      (true, { c with
        mission_data := dictSet c.mission_data "kamikaze_target"
          (parameters.pget "target_id") })
    else (false, c)
  | .ESCAPE =>
    if c.current_state ≠ .EMERGENCY then
      let c := c.update_state .ESCAPING now
      (true, { c with
        mission_data := dictSet c.mission_data "escape_direction"
          (parameters.pget "direction") })
    else (false, c)
  | .LOCK =>
    if c.current_state = .TRACKING then
      let c := c.update_state .LOCKING now
      (true, { c with
        mission_data := dictSet c.mission_data "lock_target"
          (parameters.pget "target_id") })
    else (false, c)
  | .MISSION_UPDATE =>
    (true, { c with mission_data := c.mission_data.pupdate parameters })
  | .STATUS_REQUEST =>
    (true, c)

/-- The guard of each command, read off the `if` conditions of
`process_command` (they agree with the spec's transition table). -/
def commandGuard (cmd : QRCommand) (st : MissionState) : Bool :=
  match cmd with
  | .KAMIKAZE => st = .LOCKED ∨ st = .TRACKING
  | .ESCAPE => st ≠ .EMERGENCY
  | .LOCK => st = .TRACKING
  | .MISSION_UPDATE => true
  | .STATUS_REQUEST => true

/-- C1: for every state and every processed command, an unmet guard leaves the
whole controller unchanged and `process_command` returns failure; a LOCK
command in SEARCHING is rejected with no state change, and the same LOCK
command in TRACKING transitions the state to LOCKING and returns success. -/
theorem processCommand_guard_enforcement
    (c : MissionController) (info : CommandInfo) (now : ℚ) :
    (commandGuard info.type c.current_state = false →
      c.process_command info now = (false, c)) ∧
    (info.type = .LOCK → c.current_state = .SEARCHING →
      c.process_command info now = (false, c)) ∧
    (info.type = .LOCK → c.current_state = .TRACKING →
      (c.process_command info now).1 = true ∧
      (c.process_command info now).2.current_state = .LOCKING) := by
  refine ⟨?_, ?_, ?_⟩
  · intro hguard
    cases htype : info.type <;>
      simp only [MissionController.process_command, htype] <;>
      simp [commandGuard, htype] at hguard <;>
      simp [hguard]
  · intro htype hstate
    simp [MissionController.process_command, htype, hstate]
  · intro htype hstate
    simp [MissionController.process_command, htype, hstate,
      MissionController.update_state]

/-- Witness for C1 at concrete inputs: a LOCK command in SEARCHING is
rejected unchanged, and the same command in TRACKING succeeds into LOCKING. -/
theorem processCommand_guard_enforcement_witness :
    (MissionController.process_command
        { MissionController.init 0 with current_state := .SEARCHING }
        { type := .LOCK, timestamp := 1, parameters := [] } 1 =
      (false, { MissionController.init 0 with current_state := .SEARCHING })) ∧
    (MissionController.process_command
        { MissionController.init 0 with current_state := .TRACKING }
        { type := .LOCK, timestamp := 1, parameters := [] } 1).1 = true ∧
    (MissionController.process_command
        { MissionController.init 0 with current_state := .TRACKING }
        { type := .LOCK, timestamp := 1, parameters := [] } 1).2.current_state
      = .LOCKING := by
  refine ⟨?_, ?_⟩
  · exact (processCommand_guard_enforcement
      { MissionController.init 0 with current_state := .SEARCHING }
      { type := .LOCK, timestamp := 1, parameters := [] } 1).2.1 rfl rfl
  · exact (processCommand_guard_enforcement
      { MissionController.init 0 with current_state := .TRACKING }
      { type := .LOCK, timestamp := 1, parameters := [] } 1).2.2 rfl rfl

/-! ## QR processor (`qr_processor.py`) -/

/-- The outcome of `json.loads` plus field validation on a QR payload
(lines 35–47 of `qr_processor.py`); JSON decoding itself is external to the
core and is modelled by its parse result. -/
inductive QRPayload where
  /-- `json.JSONDecodeError` raised. -/
  | invalid
  /-- a JSON object with no `command` key. -/
  | noCommandField
  /-- a `command` string not naming a `QRCommand` (`ValueError`). -/
  | badCommand
  /-- a well-formed command with its `parameters` object. -/
  | valid (c : QRCommand) (parameters : ParamMap)
deriving DecidableEq

/-- The mutable state of `QRProcessor`. -/
structure QRProcessor where
  last_command : Option QRCommand
  last_command_time : Option ℚ
  command_history : List CommandInfo
  command_cooldown : ℚ
deriving DecidableEq

/-- `QRProcessor.__init__`. -/
def QRProcessor.init : QRProcessor where
  last_command := none
  last_command_time := none
  command_history := []
  command_cooldown := 2

/-- Python truthiness of `self.last_command_time and <rest>`: `None` and the
timestamp `0.0` are both falsy. -/
def timeTruthy (t : Option ℚ) : Bool :=
  match t with
  | none => false
  | some x => x ≠ 0

/-- `QRProcessor.process_qr_data`: parse, validate, apply the 2.0 s
same-command cooldown, and record the accepted command (history capped
at 50). The `time.time()` read is the `now` argument. -/
def QRProcessor.process_qr_data (s : QRProcessor) (payload : QRPayload)
    (now : ℚ) : Option CommandInfo × QRProcessor :=
  match payload with
  | .invalid => (none, s)
  | .noCommandField => (none, s)
  | .badCommand => (none, s)
  | .valid command_type parameters =>
    if s.last_command = some command_type ∧ timeTruthy s.last_command_time ∧
        now - s.last_command_time.getD 0 < s.command_cooldown then
      (none, s)
    else
      let command_info : CommandInfo :=
        { type := command_type, timestamp := now, parameters := parameters }
      let hist := s.command_history ++ [command_info]
      (some command_info,
        { s with
          last_command := some command_type
          last_command_time := some now
          command_history := if hist.length > 50 then hist.drop 1 else hist })

/-- One pass of the QR→mission pipeline: decode and de-duplicate the payload
in the QR processor, and only when a command survives hand it to the mission
state machine; the returned flag is `process_command`'s success. -/
def pipelineStep (s : QRProcessor × MissionController) (payload : QRPayload)
    (now : ℚ) : (QRProcessor × MissionController) × Bool :=
  match s.1.process_qr_data payload now with
  | (none, qs) => ((qs, s.2), false)
  | (some info, qs) =>
    let r := s.2.process_command info now
    ((qs, r.2), r.1)

/-- C6: a command whose type equals the previously accepted command's type is
dropped by the QR processor — before the state-machine guard is ever
consulted — whenever it arrives within the 2.0 s cooldown of that previous
acceptance; consequently two identical KAMIKAZE payloads 0.5 s apart, fed to
a fresh processor with the mission controller in TRACKING, produce exactly
one accepted transition (the first, into KAMIKAZE; the second yields no
command and changes nothing). -/
theorem qr_cooldown_dedup
    (s : QRProcessor) (c : QRCommand) (params : ParamMap) (t now : ℚ)
    (mc : MissionController) (t0 : ℚ) :
    (s.last_command = some c → s.last_command_time = some t → 0 < t →
      now - t < s.command_cooldown →
      s.process_qr_data (.valid c params) now = (none, s)) ∧
    (mc.current_state = .TRACKING → 0 < t0 →
      let step1 := pipelineStep (QRProcessor.init, mc)
        (.valid .KAMIKAZE params) t0
      let step2 := pipelineStep step1.1 (.valid .KAMIKAZE params) (t0 + 1/2)
      step1.2 = true ∧
      step1.1.2.current_state = .KAMIKAZE ∧
      (step1.1.1.process_qr_data (.valid .KAMIKAZE params) (t0 + 1/2)).1
        = none ∧
      step2.2 = false ∧
      step2.1.2 = step1.1.2) := by
  constructor
  · intro hcmd htime ht hcool
    simp [QRProcessor.process_qr_data, hcmd, htime, timeTruthy, ne_of_gt ht,
      hcool]
  · intro hstate ht0
    have hfirst : QRProcessor.init.process_qr_data
        (.valid .KAMIKAZE params) t0 =
        (some { type := .KAMIKAZE, timestamp := t0, parameters := params },
         { last_command := some QRCommand.KAMIKAZE
           last_command_time := some t0
           command_history :=
             [{ type := .KAMIKAZE, timestamp := t0, parameters := params }]
           command_cooldown := 2 }) := by
      simp [QRProcessor.process_qr_data, QRProcessor.init]
    have hsecond :
        QRProcessor.process_qr_data
          { last_command := some QRCommand.KAMIKAZE
            last_command_time := some t0
            command_history :=
              [{ type := .KAMIKAZE, timestamp := t0, parameters := params }]
            command_cooldown := 2 }
          (.valid .KAMIKAZE params) (t0 + 1/2) =
        (none,
          { last_command := some QRCommand.KAMIKAZE
            last_command_time := some t0
            command_history :=
              [{ type := .KAMIKAZE, timestamp := t0, parameters := params }]
            command_cooldown := 2 }) := by
      have harith : t0 + 1/2 - t0 < 2 := by norm_num
      simp [QRProcessor.process_qr_data, timeTruthy, ne_of_gt ht0, harith]
      norm_num
    simp only [pipelineStep, hfirst, hsecond]
    simp [MissionController.process_command, MissionController.update_state,
      hstate, hsecond]

/-- Witness for C6 at concrete inputs: with the cooldown armed at `t = 1`,
an identical command at `now = 2` is dropped, and the two-KAMIKAZE scenario
from TRACKING at `t0 = 1` accepts exactly the first command. -/
theorem qr_cooldown_dedup_witness :
    (QRProcessor.process_qr_data
        { QRProcessor.init with
            last_command := some QRCommand.KAMIKAZE
            last_command_time := some 1 }
        (.valid .KAMIKAZE []) 2 =
      (none,
        { QRProcessor.init with
            last_command := some QRCommand.KAMIKAZE
            last_command_time := some 1 })) ∧
    (pipelineStep (QRProcessor.init,
        { MissionController.init 0 with current_state := .TRACKING })
        (.valid .KAMIKAZE []) 1).2 = true ∧
    (pipelineStep
        (pipelineStep (QRProcessor.init,
          { MissionController.init 0 with current_state := .TRACKING })
          (.valid .KAMIKAZE []) 1).1
        (.valid .KAMIKAZE []) (1 + 1/2)).2 = false := by
  have h := qr_cooldown_dedup
    { QRProcessor.init with
        last_command := some QRCommand.KAMIKAZE
        last_command_time := some 1 }
    QRCommand.KAMIKAZE [] 1 2
    { MissionController.init 0 with current_state := .TRACKING } 1
  refine ⟨h.1 rfl rfl (by norm_num) (by norm_num [QRProcessor.init]), ?_, ?_⟩
  · exact (h.2 rfl (by norm_num)).1
  · exact (h.2 rfl (by norm_num)).2.2.2.1

/-! ## Mission priority bookkeeping (`mission_types.py`, `mission_manager.py`) -/

/-- `MissionPriority` enum (`auto()` values 1..4). -/
inductive MissionPriority where
  | CRITICAL
  | HIGH
  | MEDIUM
  | LOW
deriving DecidableEq, Repr

/-- `MissionType` enum. -/
inductive MissionType where
  | SCAN
  | TRACK
  | LOCK
  | KAMIKAZE
  | ESCAPE
  | RETURN_HOME
deriving DecidableEq, Repr

/-- `MissionStatus` enum. -/
inductive MissionStatus where
  | PENDING
  | ACTIVE
  | COMPLETED
  | FAILED
  | INTERRUPTED
deriving DecidableEq, Repr

/-- `MissionData` dataclass (`parameters` kept abstract; no claim reads it). -/
structure MissionData where
  mission_id : String
  mission_type : MissionType
  priority : MissionPriority
  status : MissionStatus
  start_time : ℚ
  completion_time : Option ℚ := none
  target_id : Option String := none
  parameters : ParamMap := []
deriving DecidableEq

/-- `MissionData.update_status`: set the status, and stamp `completion_time`
on any of the three terminal statuses. The `time.time()` read is `now`. -/
def MissionData.updateStatusAt (m : MissionData) (new_status : MissionStatus)
    (now : ℚ) : MissionData :=
  if new_status = .COMPLETED ∨ new_status = .FAILED ∨
      new_status = .INTERRUPTED then
    { m with status := new_status, completion_time := some now }
  else
    { m with status := new_status }

/-- The mutable state of `MissionManager`. In Python `current_mission` holds
a reference to the same object stored in `active_missions`; all the code's
uses of it go through `mission_id` comparison, so the reference is modelled
by that id. -/
structure MissionManager where
  active_missions : List (String × MissionData)
  mission_history : List MissionData
  current_mission : Option String
deriving DecidableEq

/-- `MissionManager.__init__`. -/
def MissionManager.init : MissionManager where
  active_missions := []
  mission_history := []
  current_mission := none

/-- `MissionManager.update_mission_status`: no-op on unknown ids; otherwise
update the mission's status in place, and only for COMPLETED or FAILED move
it to history and clear the current pointer when it pointed there. -/
def MissionManager.update_mission_status (s : MissionManager)
    (mission_id : String) (new_status : MissionStatus) (now : ℚ) :
    MissionManager :=
  match dictGet s.active_missions mission_id with
  | none => s
  | some mission =>
    let mission' := mission.updateStatusAt new_status now
    let s := { s with
      active_missions := dictSet s.active_missions mission_id mission' }
    if new_status = .COMPLETED ∨ new_status = .FAILED then
      { s with
        mission_history := s.mission_history ++ [mission']
        active_missions := dictDel s.active_missions mission_id
        current_mission :=
          if s.current_mission = some mission_id then none
          else s.current_mission }
    else s

/-- C2 counterexample: a mission updated to the terminal status INTERRUPTED is
*not* moved from the active set to the history list, and the current-mission
pointer is *not* cleared — refuting the claim at a concrete one-mission
manager state. -/
theorem updateMissionStatus_interrupted_not_archived :
    let m : MissionData :=
      { mission_id := "m1", mission_type := .SCAN, priority := .LOW,
        status := .ACTIVE, start_time := 1 }
    let s : MissionManager :=
      { active_missions := [("m1", m)], mission_history := [],
        current_mission := some "m1" }
    let s' := s.update_mission_status "m1" .INTERRUPTED 2
    (s'.active_missions.map Prod.fst = ["m1"]) ∧
    s'.mission_history = [] ∧
    s'.current_mission = some "m1" := by
  decide

/-- C2 amended: for every mission id present in the active set, updating it
to COMPLETED or FAILED moves the mission from the active set to the history
list and clears the current pointer when it pointed there; updating it to
INTERRUPTED instead stamps the status and completion time but leaves the
mission in the active set and leaves the current pointer untouched. -/
theorem updateMissionStatus_terminal_archive
    (s : MissionManager) (mid : String) (m : MissionData)
    (st : MissionStatus) (now : ℚ)
    (hmem : dictGet s.active_missions mid = some m) :
    (st = .COMPLETED ∨ st = .FAILED →
      (s.update_mission_status mid st now).active_missions =
        dictDel (dictSet s.active_missions mid (m.updateStatusAt st now)) mid ∧
      (s.update_mission_status mid st now).mission_history =
        s.mission_history ++ [m.updateStatusAt st now] ∧
      (s.update_mission_status mid st now).current_mission =
        (if s.current_mission = some mid then none else s.current_mission)) ∧
    (st = .INTERRUPTED →
      (s.update_mission_status mid st now).active_missions =
        dictSet s.active_missions mid
          { m with status := .INTERRUPTED, completion_time := some now } ∧
      (s.update_mission_status mid st now).mission_history =
        s.mission_history ∧
      (s.update_mission_status mid st now).current_mission =
        s.current_mission) := by
  constructor
  · intro hterm
    rcases hterm with h | h <;>
      simp [MissionManager.update_mission_status, hmem, h]
  · intro h
    subst h
    simp [MissionManager.update_mission_status, hmem,
      MissionData.updateStatusAt]

/-- Witness for the amended C2 at a concrete manager: COMPLETED archives the
mission and clears the pointer; INTERRUPTED leaves it active. -/
theorem updateMissionStatus_terminal_archive_witness :
    let m : MissionData :=
      { mission_id := "m1", mission_type := .SCAN, priority := .LOW,
        status := .ACTIVE, start_time := 1 }
    let s : MissionManager :=
      { active_missions := [("m1", m)], mission_history := [],
        current_mission := some "m1" }
    ((s.update_mission_status "m1" .COMPLETED 2).active_missions =
        dictDel (dictSet s.active_missions "m1"
          (m.updateStatusAt .COMPLETED 2)) "m1" ∧
      (s.update_mission_status "m1" .COMPLETED 2).mission_history =
        s.mission_history ++ [m.updateStatusAt .COMPLETED 2] ∧
      (s.update_mission_status "m1" .COMPLETED 2).current_mission =
        (if s.current_mission = some "m1" then none
         else s.current_mission)) ∧
    (s.update_mission_status "m1" .INTERRUPTED 2).active_missions =
      dictSet s.active_missions "m1"
        { m with status := .INTERRUPTED, completion_time := some 2 } := by
  refine ⟨?_, ?_⟩
  · exact (updateMissionStatus_terminal_archive _ "m1" _ .COMPLETED 2
      (by decide)).1 (Or.inl rfl)
  · exact ((updateMissionStatus_terminal_archive _ "m1" _ .INTERRUPTED 2
      (by decide)).2 rfl).1

/-! ## Target lock evaluator (`target_lock.py`) -/

/-- An axis-aligned rectangle, as the `{'x1','y1','x2','y2'}` dicts of
`target_lock.py`. -/
structure Rect where
  x1 : ℚ
  y1 : ℚ
  x2 : ℚ
  y2 : ℚ
deriving DecidableEq

/-- One tracked object as consumed by `TargetLockSystem.update`
(the `bbox`/`confidence`/`centroid` dict produced by the tracker). -/
structure TrackedObj where
  centroid : ℚ × ℚ
  bbox : ℚ × ℚ × ℚ × ℚ
  confidence : ℚ
deriving DecidableEq

/-- One entry of `TargetLockSystem.tracked_uavs`. -/
structure UavInfo where
  uav_id : String
  first_seen : ℚ
  total_tracked_frames : Nat
  total_lock_time : ℚ
deriving DecidableEq

/-- `f"UAV_{n:03d}"`. -/
def uavLabel (n : Nat) : String :=
  "UAV_" ++
    (if n < 10 then "00" ++ toString n
     else if n < 100 then "0" ++ toString n
     else toString n)

/-- The mutable state of `TargetLockSystem` (the retained drawing frame and
the unused `lock_box_coverage` / `total_lock_window` knobs are omitted:
nothing modelled here reads them). -/
structure TargetLockSystem where
  frame_width : ℚ
  frame_height : ℚ
  required_lock_time : ℚ
  lock_tolerance : ℚ
  camera_view : Rect
  target_hit_area : Rect
  lock_zone : Rect
  current_target_id : Option Nat
  lock_start_time : Option ℚ
  window_start_time : Option ℚ
  is_locked : Bool
  lock_duration : ℚ
  lock_duration_elapsed : ℚ
  last_locked_target : Option Nat
  server_time : ℚ
  lock_hysteresis : Int
  uav_counter : Nat
  tracked_uavs : List (Nat × UavInfo)
deriving DecidableEq

/-- `TargetLockSystem.__init__` + `_setup_competition_zones` (`int(...)` on a
positive float is `Int.floor`). -/
def TargetLockSystem.init (frame_width frame_height required_lock_time : ℚ) :
    TargetLockSystem :=
  let margin_x : ℚ := ⌊(1/4 : ℚ) * frame_width⌋
  let margin_y : ℚ := ⌊(1/10 : ℚ) * frame_height⌋
  let target_hit_area : Rect :=
    { x1 := margin_x, y1 := margin_y,
      x2 := frame_width - margin_x, y2 := frame_height - margin_y }
  let lock_margin_x : ℚ := ⌊(1/20 : ℚ) * frame_width⌋
  let lock_margin_y : ℚ := ⌊(1/20 : ℚ) * frame_height⌋
  { frame_width := frame_width
    frame_height := frame_height
    required_lock_time := required_lock_time
    lock_tolerance := 1/5
    camera_view := { x1 := 0, y1 := 0, x2 := frame_width, y2 := frame_height }
    target_hit_area := target_hit_area
    lock_zone :=
      { x1 := target_hit_area.x1 + lock_margin_x
        y1 := target_hit_area.y1 + lock_margin_y
        x2 := target_hit_area.x2 - lock_margin_x
        y2 := target_hit_area.y2 - lock_margin_y }
    current_target_id := none
    lock_start_time := none
    window_start_time := none
    is_locked := false
    lock_duration := 0
    lock_duration_elapsed := 0
    last_locked_target := none
    server_time := 0
    lock_hysteresis := 0
    uav_counter := 0
    tracked_uavs := [] }

/-- `TargetLockSystem.is_point_in_lock_zone`: strict containment. -/
def TargetLockSystem.is_point_in_lock_zone (s : TargetLockSystem)
    (point : ℚ × ℚ) : Bool :=
  s.lock_zone.x1 < point.1 ∧ point.1 < s.lock_zone.x2 ∧
  s.lock_zone.y1 < point.2 ∧ point.2 < s.lock_zone.y2

/-- `TargetLockSystem.is_target_in_area`: bbox-overlap test against the hit
area widened by `lock_tolerance`; computed by `update` but consumed only by
the drawing code. -/
def TargetLockSystem.is_target_in_area (s : TargetLockSystem)
    (bbox : ℚ × ℚ × ℚ × ℚ) : Bool :=
  let area_x1 := s.target_hit_area.x1 - s.frame_width * s.lock_tolerance
  let area_y1 := s.target_hit_area.y1 - s.frame_height * s.lock_tolerance
  let area_x2 := s.target_hit_area.x2 + s.frame_width * s.lock_tolerance
  let area_y2 := s.target_hit_area.y2 + s.frame_height * s.lock_tolerance
  ¬(bbox.2.2.1 < area_x1 ∨ area_x2 < bbox.1 ∨
    bbox.2.2.2 < area_y1 ∨ area_y2 < bbox.2.1)

/-- `TargetLockSystem.reset_lock`: clear every locking parameter (and nothing
else — in particular `tracked_uavs` and `uav_counter` are untouched). -/
def TargetLockSystem.reset_lock (s : TargetLockSystem) : TargetLockSystem :=
  { s with
    current_target_id := none
    lock_start_time := none
    window_start_time := none
    is_locked := false
    lock_duration := 0
    lock_duration_elapsed := 0 }

/-- Lines 181–188 of `target_lock.py`: first sighting of a track id binds the
next sequential UAV label to it. -/
def TargetLockSystem.registerUav (s : TargetLockSystem) (obj_id : Nat)
    (now : ℚ) : TargetLockSystem :=
  if (dictGet s.tracked_uavs obj_id).isSome then s
  else
    { s with
      uav_counter := s.uav_counter + 1
      tracked_uavs := s.tracked_uavs ++
        [(obj_id, { uav_id := uavLabel (s.uav_counter + 1), first_seen := now,
                    total_tracked_frames := 0, total_lock_time := 0 })] }

/-- Line 191 of `target_lock.py`: `total_tracked_frames += 1`. -/
def TargetLockSystem.bumpFrames (s : TargetLockSystem) (obj_id : Nat) :
    TargetLockSystem :=
  { s with
    tracked_uavs := s.tracked_uavs.map fun p =>
      if p.1 = obj_id then
        (p.1, { p.2 with total_tracked_frames := p.2.total_tracked_frames + 1 })
      else p }

/-- Line 223 of `target_lock.py`: `total_lock_time = lock_duration` once
locked. -/
def TargetLockSystem.setLockTime (s : TargetLockSystem) (obj_id : Nat)
    (duration : ℚ) : TargetLockSystem :=
  { s with
    tracked_uavs := s.tracked_uavs.map fun p =>
      if p.1 = obj_id then (p.1, { p.2 with total_lock_time := duration })
      else p }

/-- Python truthiness of `not self.lock_start_time`: `None` and the
timestamp `0.0` both count as unset. -/
def TargetLockSystem.lockStartFalsy (s : TargetLockSystem) : Bool :=
  match s.lock_start_time with
  | none => true
  | some t => t = 0

/-- The dict returned by `TargetLockSystem._get_lock_status`. -/
structure LockStatus where
  is_locked : Bool
  target_id : Option Nat
  uav_id : Option String
  lock_duration : ℚ
  window_start_time : Option ℚ
  server_time : ℚ
  lock_zone : Rect
  target_hit_area : Rect
  last_locked_target : Option Nat
  total_tracked_uavs : Nat
deriving DecidableEq

/-- `TargetLockSystem._get_lock_status`. The guard
`if self.current_target_id and self.current_target_id in self.tracked_uavs`
tests the id for truthiness, so the track id `0` never yields a label. -/
def TargetLockSystem.get_lock_status (s : TargetLockSystem) : LockStatus :=
  let current_uav_id : Option String :=
    match s.current_target_id with
    | none => none
    | some i =>
      if i = 0 then none
      else
        match dictGet s.tracked_uavs i with
        | some info => some info.uav_id
        | none => none
  { is_locked := s.is_locked
    target_id := s.current_target_id
    uav_id := current_uav_id
    lock_duration := s.lock_duration_elapsed
    window_start_time := s.window_start_time
    server_time := s.server_time
    lock_zone := s.lock_zone
    target_hit_area := s.target_hit_area
    last_locked_target := s.last_locked_target
    total_tracked_uavs := s.tracked_uavs.length }

/-- `TargetLockSystem.update` (drawing omitted; `tracked_objects` is the
tracker's dict in insertion order, of which the code reads only the first
entry; `time.time()` reads within one call are the single `now`). Returns
the new state together with the returned lock status. -/
def TargetLockSystem.update (s : TargetLockSystem)
    (tracked_objects : List (Nat × TrackedObj)) (now : ℚ) :
    TargetLockSystem × LockStatus :=
  match tracked_objects with
  | [] =>
    let s := { s with lock_hysteresis := max (s.lock_hysteresis - 1) (-3) }
    let s := if s.lock_hysteresis ≤ -3 then s.reset_lock else s
    (s, s.get_lock_status)
  | (obj_id, obj) :: _ =>
    let s := s.registerUav obj_id now
    let s := s.bumpFrames obj_id
    let in_lock_zone := s.is_point_in_lock_zone obj.centroid
    -- `in_target_area = s.is_target_in_area obj.bbox` feeds only box colors
    if in_lock_zone then
      let s := { s with lock_hysteresis := min (s.lock_hysteresis + 1) 5 }
      if 2 ≤ s.lock_hysteresis then
        let s :=
          if s.lockStartFalsy then
            { s with lock_start_time := some now,
                     current_target_id := some obj_id }
          else s
        let duration := now - s.lock_start_time.getD 0
        let locked : Bool := s.required_lock_time ≤ duration
        let s := { s with
          lock_duration := duration
          is_locked := locked
          lock_duration_elapsed := duration }
        let s := if locked then s.setLockTime obj_id duration else s
        (s, s.get_lock_status)
      else (s, s.get_lock_status)
    else
      let s := { s with lock_hysteresis := max (s.lock_hysteresis - 1) (-3) }
      let s := if s.lock_hysteresis ≤ -3 then s.reset_lock else s
      (s, s.get_lock_status)

/-- Repeated `update` calls on one in-view object: fold the state over the
wall-clock instants of the successive frames. -/
def TargetLockSystem.run (s : TargetLockSystem) (obj_id : Nat)
    (obj : TrackedObj) (times : List ℚ) : TargetLockSystem :=
  times.foldl (fun st t => (st.update [(obj_id, obj)] t).1) s

/-- Unfolding `run` one frame at a time. -/
theorem TargetLockSystem.run_cons (s : TargetLockSystem) (obj_id : Nat)
    (obj : TrackedObj) (t : ℚ) (rest : List ℚ) :
    s.run obj_id obj (t :: rest) = ((s.update [(obj_id, obj)] t).1).run obj_id obj rest :=
  rfl

/-- `update` never changes the zone geometry or the configured lock time. -/
theorem TargetLockSystem.update_preserves_config (s : TargetLockSystem)
    (tracked : List (Nat × TrackedObj)) (now : ℚ) :
    (s.update tracked now).1.lock_zone = s.lock_zone ∧
    (s.update tracked now).1.required_lock_time = s.required_lock_time := by
  rcases tracked with _ | ⟨⟨obj_id, obj⟩, rest⟩ <;>
    simp only [TargetLockSystem.update] <;>
    split_ifs <;>
    simp [TargetLockSystem.reset_lock, TargetLockSystem.registerUav,
      TargetLockSystem.bumpFrames, TargetLockSystem.setLockTime] <;>
    split_ifs <;> simp

/-- The strict lock-zone test reads only the zone rectangle. -/
theorem TargetLockSystem.in_lock_zone_congr (s s' : TargetLockSystem)
    (p : ℚ × ℚ) (hzone : s'.lock_zone = s.lock_zone) :
    s'.is_point_in_lock_zone p = s.is_point_in_lock_zone p := by
  simp [TargetLockSystem.is_point_in_lock_zone, hzone]

@[simp] theorem TargetLockSystem.registerUav_lock_zone (s : TargetLockSystem)
    (o : Nat) (n : ℚ) : (s.registerUav o n).lock_zone = s.lock_zone := by
  unfold TargetLockSystem.registerUav; split_ifs <;> rfl

@[simp] theorem TargetLockSystem.registerUav_required (s : TargetLockSystem)
    (o : Nat) (n : ℚ) :
    (s.registerUav o n).required_lock_time = s.required_lock_time := by
  unfold TargetLockSystem.registerUav; split_ifs <;> rfl

@[simp] theorem TargetLockSystem.registerUav_start (s : TargetLockSystem)
    (o : Nat) (n : ℚ) :
    (s.registerUav o n).lock_start_time = s.lock_start_time := by
  unfold TargetLockSystem.registerUav; split_ifs <;> rfl

@[simp] theorem TargetLockSystem.registerUav_target (s : TargetLockSystem)
    (o : Nat) (n : ℚ) :
    (s.registerUav o n).current_target_id = s.current_target_id := by
  unfold TargetLockSystem.registerUav; split_ifs <;> rfl

@[simp] theorem TargetLockSystem.registerUav_hyst (s : TargetLockSystem)
    (o : Nat) (n : ℚ) :
    (s.registerUav o n).lock_hysteresis = s.lock_hysteresis := by
  unfold TargetLockSystem.registerUav; split_ifs <;> rfl

@[simp] theorem TargetLockSystem.registerUav_locked (s : TargetLockSystem)
    (o : Nat) (n : ℚ) : (s.registerUav o n).is_locked = s.is_locked := by
  unfold TargetLockSystem.registerUav; split_ifs <;> rfl

@[simp] theorem TargetLockSystem.registerUav_duration (s : TargetLockSystem)
    (o : Nat) (n : ℚ) : (s.registerUav o n).lock_duration = s.lock_duration := by
  unfold TargetLockSystem.registerUav; split_ifs <;> rfl

@[simp] theorem TargetLockSystem.bumpFrames_lock_zone (s : TargetLockSystem)
    (o : Nat) : (s.bumpFrames o).lock_zone = s.lock_zone := rfl

@[simp] theorem TargetLockSystem.bumpFrames_required (s : TargetLockSystem)
    (o : Nat) : (s.bumpFrames o).required_lock_time = s.required_lock_time :=
  rfl

@[simp] theorem TargetLockSystem.bumpFrames_start (s : TargetLockSystem)
    (o : Nat) : (s.bumpFrames o).lock_start_time = s.lock_start_time := rfl

@[simp] theorem TargetLockSystem.bumpFrames_target (s : TargetLockSystem)
    (o : Nat) : (s.bumpFrames o).current_target_id = s.current_target_id := rfl

@[simp] theorem TargetLockSystem.bumpFrames_hyst (s : TargetLockSystem)
    (o : Nat) : (s.bumpFrames o).lock_hysteresis = s.lock_hysteresis := rfl

@[simp] theorem TargetLockSystem.bumpFrames_locked (s : TargetLockSystem)
    (o : Nat) : (s.bumpFrames o).is_locked = s.is_locked := rfl

@[simp] theorem TargetLockSystem.bumpFrames_duration (s : TargetLockSystem)
    (o : Nat) : (s.bumpFrames o).lock_duration = s.lock_duration := rfl

@[simp] theorem TargetLockSystem.bumpFrames_counter (s : TargetLockSystem)
    (o : Nat) : (s.bumpFrames o).uav_counter = s.uav_counter := rfl

@[simp] theorem TargetLockSystem.setLockTime_start (s : TargetLockSystem)
    (o : Nat) (d : ℚ) : (s.setLockTime o d).lock_start_time = s.lock_start_time :=
  rfl

@[simp] theorem TargetLockSystem.setLockTime_target (s : TargetLockSystem)
    (o : Nat) (d : ℚ) :
    (s.setLockTime o d).current_target_id = s.current_target_id := rfl

@[simp] theorem TargetLockSystem.setLockTime_hyst (s : TargetLockSystem)
    (o : Nat) (d : ℚ) : (s.setLockTime o d).lock_hysteresis = s.lock_hysteresis :=
  rfl

@[simp] theorem TargetLockSystem.setLockTime_locked (s : TargetLockSystem)
    (o : Nat) (d : ℚ) : (s.setLockTime o d).is_locked = s.is_locked := rfl

@[simp] theorem TargetLockSystem.setLockTime_duration (s : TargetLockSystem)
    (o : Nat) (d : ℚ) : (s.setLockTime o d).lock_duration = s.lock_duration :=
  rfl

@[simp] theorem TargetLockSystem.setLockTime_lock_zone (s : TargetLockSystem)
    (o : Nat) (d : ℚ) : (s.setLockTime o d).lock_zone = s.lock_zone := rfl

@[simp] theorem TargetLockSystem.setLockTime_required (s : TargetLockSystem)
    (o : Nat) (d : ℚ) :
    (s.setLockTime o d).required_lock_time = s.required_lock_time := rfl

/-- In-zone frame while the hysteresis counter is still below 1: the counter
climbs by one but the lock clock is not consulted. -/
theorem TargetLockSystem.update_step_low (s : TargetLockSystem)
    (obj_id : Nat) (obj : TrackedObj) (t : ℚ)
    (hz : s.is_point_in_lock_zone obj.centroid = true)
    (hh : s.lock_hysteresis ≤ 0) :
    (s.update [(obj_id, obj)] t).1.lock_start_time = s.lock_start_time ∧
    (s.update [(obj_id, obj)] t).1.current_target_id = s.current_target_id ∧
    (s.update [(obj_id, obj)] t).1.is_locked = s.is_locked ∧
    (s.update [(obj_id, obj)] t).1.lock_hysteresis =
      min (s.lock_hysteresis + 1) 5 := by
  have hz' : ((s.registerUav obj_id t).bumpFrames obj_id).is_point_in_lock_zone
      obj.centroid = true := by
    rw [TargetLockSystem.in_lock_zone_congr s
      ((s.registerUav obj_id t).bumpFrames obj_id) obj.centroid (by simp)]
    exact hz
  have hlt : ¬ (2 ≤ min (s.lock_hysteresis + 1) 5) := by
    intro hcon
    have := le_trans hcon (min_le_left _ _)
    omega
  simp only [TargetLockSystem.update, hz', if_true]
  simp [hlt]

/-- In-zone frame with the counter at 1 and the lock clock unset: the counter
reaches 2 and this very frame starts the lock clock. -/
theorem TargetLockSystem.update_step_establish (s : TargetLockSystem)
    (obj_id : Nat) (obj : TrackedObj) (t : ℚ)
    (hz : s.is_point_in_lock_zone obj.centroid = true)
    (hstart : s.lock_start_time = none)
    (hh : s.lock_hysteresis = 1) :
    (s.update [(obj_id, obj)] t).1.lock_start_time = some t ∧
    (s.update [(obj_id, obj)] t).1.current_target_id = some obj_id ∧
    (s.update [(obj_id, obj)] t).1.lock_hysteresis = 2 ∧
    (s.update [(obj_id, obj)] t).1.is_locked =
      decide (s.required_lock_time ≤ t - t) ∧
    (s.update [(obj_id, obj)] t).1.lock_duration = t - t := by
  have hz' : ((s.registerUav obj_id t).bumpFrames obj_id).is_point_in_lock_zone
      obj.centroid = true := by
    rw [TargetLockSystem.in_lock_zone_congr s
      ((s.registerUav obj_id t).bumpFrames obj_id) obj.centroid (by simp)]
    exact hz
  have hmin : min (s.lock_hysteresis + 1) 5 = 2 := by
    rw [hh]; decide
  simp only [TargetLockSystem.update, hz', if_true]
  simp [TargetLockSystem.lockStartFalsy, hmin, hstart]
  split_ifs <;> simp_all

/-- In-zone frame with the lock clock already running (nonzero start stamp)
and the counter at least 1: the lock flag re-evaluates against the elapsed
time since the unchanged start stamp. -/
theorem TargetLockSystem.update_step_locked (s : TargetLockSystem)
    (obj_id : Nat) (obj : TrackedObj) (t t2 : ℚ)
    (hz : s.is_point_in_lock_zone obj.centroid = true)
    (hstart : s.lock_start_time = some t2) (ht2 : t2 ≠ 0)
    (hcur : s.current_target_id = some obj_id)
    (hh : 1 ≤ s.lock_hysteresis) :
    (s.update [(obj_id, obj)] t).1.lock_start_time = some t2 ∧
    (s.update [(obj_id, obj)] t).1.current_target_id = some obj_id ∧
    (s.update [(obj_id, obj)] t).1.lock_hysteresis =
      min (s.lock_hysteresis + 1) 5 ∧
    (s.update [(obj_id, obj)] t).1.is_locked =
      decide (s.required_lock_time ≤ t - t2) ∧
    (s.update [(obj_id, obj)] t).1.lock_duration = t - t2 := by
  have hz' : ((s.registerUav obj_id t).bumpFrames obj_id).is_point_in_lock_zone
      obj.centroid = true := by
    rw [TargetLockSystem.in_lock_zone_congr s
      ((s.registerUav obj_id t).bumpFrames obj_id) obj.centroid (by simp)]
    exact hz
  have hge : (2:ℤ) ≤ min (s.lock_hysteresis + 1) 5 := by
    rcases le_or_lt (s.lock_hysteresis + 1) 5 with hle | hgt
    · rw [min_eq_left hle]; omega
    · rw [min_eq_right (le_of_lt hgt)]; decide
  simp only [TargetLockSystem.update, hz', if_true]
  simp [TargetLockSystem.lockStartFalsy, hge, hstart, hcur, ht2]
  split_ifs <;> simp_all

theorem TargetLockSystem.run_nil (s : TargetLockSystem) (obj_id : Nat)
    (obj : TrackedObj) : s.run obj_id obj [] = s :=
  rfl

/-- Once the lock clock is running (nonzero start stamp, counter ≥ 1), a
nonempty streak of in-zone frames keeps the start stamp and the target id
and leaves the lock flag equal to "elapsed time at the streak's last frame
has reached `required_lock_time`". -/
theorem TargetLockSystem.run_locked_phase :
    ∀ (rest : List ℚ) (t : ℚ) (s : TargetLockSystem) (obj_id : Nat)
      (obj : TrackedObj) (t2 : ℚ),
    s.is_point_in_lock_zone obj.centroid = true →
    s.lock_start_time = some t2 → t2 ≠ 0 →
    s.current_target_id = some obj_id → 1 ≤ s.lock_hysteresis →
    (s.run obj_id obj (t :: rest)).lock_start_time = some t2 ∧
    (s.run obj_id obj (t :: rest)).current_target_id = some obj_id ∧
    1 ≤ (s.run obj_id obj (t :: rest)).lock_hysteresis ∧
    (s.run obj_id obj (t :: rest)).is_locked =
      decide (s.required_lock_time ≤ rest.getLastD t - t2) := by
  intro rest
  induction rest with
  | nil =>
    intro t s obj_id obj t2 hz hstart ht2 hcur hh
    rw [TargetLockSystem.run_cons, TargetLockSystem.run_nil]
    obtain ⟨h1, h2, h3, h4, _⟩ :=
      TargetLockSystem.update_step_locked s obj_id obj t t2 hz hstart ht2 hcur hh
    refine ⟨h1, h2, ?_, ?_⟩
    · rw [h3]
      exact le_min (by omega) (by norm_num)
    · simpa using h4
  | cons t' rest' ih =>
    intro t s obj_id obj t2 hz hstart ht2 hcur hh
    rw [TargetLockSystem.run_cons]
    obtain ⟨h1, h2, h3, _, _⟩ :=
      TargetLockSystem.update_step_locked s obj_id obj t t2 hz hstart ht2 hcur hh
    have hz' : ((s.update [(obj_id, obj)] t).1).is_point_in_lock_zone
        obj.centroid = true := by
      rw [TargetLockSystem.in_lock_zone_congr s _ obj.centroid
        (TargetLockSystem.update_preserves_config s _ t).1]
      exact hz
    have hh' : 1 ≤ ((s.update [(obj_id, obj)] t).1).lock_hysteresis := by
      rw [h3]
      exact le_min (by omega) (by norm_num)
    obtain ⟨g1, g2, g3, g4⟩ := ih t' ((s.update [(obj_id, obj)] t).1)
      obj_id obj t2 hz' h1 ht2 h2 hh'
    refine ⟨g1, g2, g3, ?_⟩
    rw [g4, (TargetLockSystem.update_preserves_config s _ t).2,
      List.getLastD_cons]

/-- C3: for every run of lock-evaluator updates on a single tracked object
whose centroid is inside the lock zone on every frame (wall-clock instants
strictly increasing), the lock start stamp is still unset after the first
update (counter 1) and from the second update on — the update where the
hysteresis counter first reaches 2 — it equals that update's time `t2` and
never changes; and after every update from the second on, `is_locked` holds
exactly when the elapsed time at that update since `t2` has reached
`required_lock_time` (instantiating `rest` at each prefix of the run gives
the flag's value at every intermediate frame, so the flag first becomes true
at the first update whose elapsed time reaches the threshold and never
before). -/
theorem targetLock_timing (w h req t1 t2 : ℚ) (rest : List ℚ)
    (obj_id : Nat) (obj : TrackedObj)
    (hz : (TargetLockSystem.init w h req).is_point_in_lock_zone obj.centroid
      = true)
    (hchain : List.Chain (· < ·) 0 (t1 :: t2 :: rest)) :
    ((TargetLockSystem.init w h req).run obj_id obj [t1]).lock_start_time
      = none ∧
    ((TargetLockSystem.init w h req).run obj_id obj [t1]).is_locked = false ∧
    ((TargetLockSystem.init w h req).run obj_id obj
      (t1 :: t2 :: rest)).lock_start_time = some t2 ∧
    ((TargetLockSystem.init w h req).run obj_id obj
      (t1 :: t2 :: rest)).current_target_id = some obj_id ∧
    ((TargetLockSystem.init w h req).run obj_id obj
      (t1 :: t2 :: rest)).is_locked = decide (req ≤ rest.getLastD t2 - t2) := by
  obtain ⟨ht1, hchain1⟩ : 0 < t1 ∧ List.Chain (· < ·) t1 (t2 :: rest) := by
    cases hchain with
    | cons h1 h2 => exact ⟨h1, h2⟩
  obtain ⟨ht12, _⟩ : t1 < t2 ∧ List.Chain (· < ·) t2 rest := by
    cases hchain1 with
    | cons h1 h2 => exact ⟨h1, h2⟩
  have ht2ne : t2 ≠ 0 := ne_of_gt (lt_trans ht1 ht12)
  have hs0start : (TargetLockSystem.init w h req).lock_start_time = none := rfl
  have hs0hyst : (TargetLockSystem.init w h req).lock_hysteresis = 0 := rfl
  have hs0locked : (TargetLockSystem.init w h req).is_locked = false := rfl
  have hs0req : (TargetLockSystem.init w h req).required_lock_time = req := rfl
  obtain ⟨l1, l2, l3, l4⟩ := TargetLockSystem.update_step_low
    (TargetLockSystem.init w h req) obj_id obj t1 hz (by rw [hs0hyst])
  have hs1 : (TargetLockSystem.init w h req).run obj_id obj [t1] =
      ((TargetLockSystem.init w h req).update [(obj_id, obj)] t1).1 := rfl
  have hs1start : ((TargetLockSystem.init w h req).update
      [(obj_id, obj)] t1).1.lock_start_time = none := by rw [l1, hs0start]
  have hs1hyst : ((TargetLockSystem.init w h req).update
      [(obj_id, obj)] t1).1.lock_hysteresis = 1 := by
    rw [l4, hs0hyst]; decide
  have hs1req : ((TargetLockSystem.init w h req).update
      [(obj_id, obj)] t1).1.required_lock_time = req := by
    rw [(TargetLockSystem.update_preserves_config _ _ t1).2, hs0req]
  have hz1 : ((TargetLockSystem.init w h req).update
      [(obj_id, obj)] t1).1.is_point_in_lock_zone obj.centroid = true := by
    rw [TargetLockSystem.in_lock_zone_congr (TargetLockSystem.init w h req) _
      obj.centroid (TargetLockSystem.update_preserves_config _ _ t1).1]
    exact hz
  refine ⟨by rw [hs1, hs1start], by rw [hs1, l3, hs0locked], ?_⟩
  obtain ⟨e1, e2, e3, e4, _⟩ := TargetLockSystem.update_step_establish
    ((TargetLockSystem.init w h req).update [(obj_id, obj)] t1).1
    obj_id obj t2 hz1 hs1start hs1hyst
  have hrun2 : ∀ l : List ℚ,
      (TargetLockSystem.init w h req).run obj_id obj (t1 :: t2 :: l) =
      ((((TargetLockSystem.init w h req).update [(obj_id, obj)] t1).1.update
        [(obj_id, obj)] t2).1).run obj_id obj l := by
    intro l; rfl
  have hs2req : ((((TargetLockSystem.init w h req).update
      [(obj_id, obj)] t1).1.update [(obj_id, obj)] t2).1).required_lock_time
      = req := by
    rw [(TargetLockSystem.update_preserves_config _ _ t2).2, hs1req]
  cases rest with
  | nil =>
    rw [hrun2, TargetLockSystem.run_nil]
    refine ⟨e1, e2, ?_⟩
    rw [e4, hs1req]
    simp
  | cons r rest' =>
    rw [hrun2]
    have hz2 : ((((TargetLockSystem.init w h req).update
        [(obj_id, obj)] t1).1.update [(obj_id, obj)] t2).1).is_point_in_lock_zone
        obj.centroid = true := by
      rw [TargetLockSystem.in_lock_zone_congr
        ((TargetLockSystem.init w h req).update [(obj_id, obj)] t1).1 _
        obj.centroid (TargetLockSystem.update_preserves_config _ _ t2).1]
      exact hz1
    have hh2 : 1 ≤ ((((TargetLockSystem.init w h req).update
        [(obj_id, obj)] t1).1.update [(obj_id, obj)] t2).1).lock_hysteresis := by
      rw [e3]; norm_num
    obtain ⟨g1, g2, _, g4⟩ := TargetLockSystem.run_locked_phase rest' r
      ((((TargetLockSystem.init w h req).update [(obj_id, obj)] t1).1.update
        [(obj_id, obj)] t2).1) obj_id obj t2 hz2 e1 ht2ne e2 hh2
    refine ⟨g1, g2, ?_⟩
    rw [g4, hs2req, List.getLastD_cons]

/-- Witness for C3 at a 1280×720 frame, a centroid at frame center, and
frames at times 1, 2, 3, 7 s: the start stamp is unset after one frame, then
pinned to 2 (the counter-reaches-2 frame), and with the default 5 s
requirement the lock flag is true at time 7 (elapsed 5 s). -/
theorem targetLock_timing_witness :
    ((TargetLockSystem.init 1280 720 5).run 7
      { centroid := (640, 360), bbox := (600, 320, 680, 400),
        confidence := 9/10 } [1]).lock_start_time = none ∧
    ((TargetLockSystem.init 1280 720 5).run 7
      { centroid := (640, 360), bbox := (600, 320, 680, 400),
        confidence := 9/10 } [1, 2, 3, 7]).lock_start_time = some 2 ∧
    ((TargetLockSystem.init 1280 720 5).run 7
      { centroid := (640, 360), bbox := (600, 320, 680, 400),
        confidence := 9/10 } [1, 2, 3, 7]).is_locked = true := by
  have hw := targetLock_timing 1280 720 5 1 2 [3, 7] 7
    { centroid := (640, 360), bbox := (600, 320, 680, 400),
      confidence := 9/10 }
    (by norm_num [TargetLockSystem.init, TargetLockSystem.is_point_in_lock_zone])
    (by norm_num [List.chain_cons])
  refine ⟨hw.1, hw.2.2.1, ?_⟩
  rw [hw.2.2.2.2]
  norm_num [List.getLastD]

/-- C4: whenever the hysteresis counter reaches its floor of −3 — by an
empty track set or by an out-of-zone frame — the lock state is fully reset
(start stamp, duration, lock flag and current target id all cleared), while
the reset itself leaves `tracked_uavs` and `uav_counter` untouched: on the
empty-input branch they are exactly the previous values, and on the
out-of-zone branch they are exactly the values produced by that frame's
identity bookkeeping (`registerUav` / frame-count bump), not the reset. -/
theorem targetLock_floor_reset (s : TargetLockSystem) (obj_id : Nat)
    (obj : TrackedObj) (t : ℚ)
    (hh : s.lock_hysteresis ≤ -2) :
    ((s.update [] t).1.current_target_id = none ∧
     (s.update [] t).1.lock_start_time = none ∧
     (s.update [] t).1.is_locked = false ∧
     (s.update [] t).1.lock_duration = 0 ∧
     (s.update [] t).1.lock_hysteresis = -3 ∧
     (s.update [] t).1.tracked_uavs = s.tracked_uavs ∧
     (s.update [] t).1.uav_counter = s.uav_counter) ∧
    (s.is_point_in_lock_zone obj.centroid = false →
     ((s.update [(obj_id, obj)] t).1.current_target_id = none ∧
      (s.update [(obj_id, obj)] t).1.lock_start_time = none ∧
      (s.update [(obj_id, obj)] t).1.is_locked = false ∧
      (s.update [(obj_id, obj)] t).1.lock_duration = 0 ∧
      (s.update [(obj_id, obj)] t).1.lock_hysteresis = -3 ∧
      (s.update [(obj_id, obj)] t).1.tracked_uavs =
        ((s.registerUav obj_id t).bumpFrames obj_id).tracked_uavs ∧
      (s.update [(obj_id, obj)] t).1.uav_counter =
        (s.registerUav obj_id t).uav_counter)) ∧
    (s.reset_lock.tracked_uavs = s.tracked_uavs ∧
     s.reset_lock.uav_counter = s.uav_counter ∧
     s.reset_lock.current_target_id = none ∧
     s.reset_lock.lock_start_time = none ∧
     s.reset_lock.is_locked = false ∧
     s.reset_lock.lock_duration = 0) := by
  have hmax : max (s.lock_hysteresis - 1) (-3) = -3 :=
    max_eq_right (by omega)
  refine ⟨?_, ?_, ?_⟩
  · simp only [TargetLockSystem.update, hmax]
    norm_num [TargetLockSystem.reset_lock]
  · intro hz
    have hz' : ((s.registerUav obj_id t).bumpFrames obj_id).is_point_in_lock_zone
        obj.centroid = false := by
      rw [TargetLockSystem.in_lock_zone_congr s
        ((s.registerUav obj_id t).bumpFrames obj_id) obj.centroid (by simp)]
      exact hz
    simp only [TargetLockSystem.update, hz', if_false, Bool.false_eq_true]
    simp only [TargetLockSystem.bumpFrames_hyst, TargetLockSystem.registerUav_hyst,
      hmax]
    norm_num [TargetLockSystem.reset_lock, TargetLockSystem.bumpFrames,
      TargetLockSystem.registerUav]
  · simp [TargetLockSystem.reset_lock]

/-- Witness for C4 at a concrete state with the counter at −2, one known
identity and a running lock clock: an out-of-zone frame floors the counter
and clears the lock fields but keeps the identity map produced by the
frame's bookkeeping. -/
theorem targetLock_floor_reset_witness :
    let s : TargetLockSystem :=
      { TargetLockSystem.init 1280 720 5 with
        lock_hysteresis := -2
        current_target_id := some 4
        lock_start_time := some 3
        is_locked := true
        lock_duration := 6
        uav_counter := 1
        tracked_uavs := [(4, ⟨"UAV_001", 3, 9, 6⟩)] }
    ((s.update [] 10).1.current_target_id = none ∧
     (s.update [] 10).1.lock_start_time = none ∧
     (s.update [] 10).1.tracked_uavs = s.tracked_uavs ∧
     (s.update [] 10).1.uav_counter = s.uav_counter) ∧
    ((s.update [(4, ⟨(5, 5), (0, 0, 10, 10), 1⟩)] 10).1.lock_start_time
        = none ∧
     (s.update [(4, ⟨(5, 5), (0, 0, 10, 10), 1⟩)] 10).1.uav_counter = 1) := by
  intro s
  have hw := targetLock_floor_reset s 4 ⟨(5, 5), (0, 0, 10, 10), 1⟩ 10
    (by norm_num)
  refine ⟨⟨hw.1.1, hw.1.2.1, hw.1.2.2.2.2.2.1, hw.1.2.2.2.2.2.2⟩, ?_, ?_⟩
  · exact (hw.2.1 (by norm_num [TargetLockSystem.init,
      TargetLockSystem.is_point_in_lock_zone])).2.1
  · rw [(hw.2.1 (by norm_num [TargetLockSystem.init,
      TargetLockSystem.is_point_in_lock_zone])).2.2.2.2.2.2]
    norm_num [TargetLockSystem.registerUav, dictGet]

/-- C10: `_get_lock_status` tests the current target id for truthiness, not
for `None`, so whenever the current target track id is `0` the reported UAV
label is `None` even when an identity for track `0` exists in
`tracked_uavs`; for every nonzero current id present in the mapping the
bound label is reported. -/
theorem lockStatus_uav_label_truthiness (s : TargetLockSystem) (i : Nat)
    (info : UavInfo) :
    (s.current_target_id = some 0 →
      (dictGet s.tracked_uavs 0).isSome = true →
      s.get_lock_status.uav_id = none) ∧
    (s.current_target_id = some i → i ≠ 0 →
      dictGet s.tracked_uavs i = some info →
      s.get_lock_status.uav_id = some info.uav_id) := by
  constructor
  · intro hcur _
    simp [TargetLockSystem.get_lock_status, hcur]
  · intro hcur hi hmem
    simp [TargetLockSystem.get_lock_status, hcur, hi, hmem]

/-- Witness for C10: with track 0 bound to label `UAV_001` and current id 0
the status reports no label; with the same state but current id 2 (bound to
`UAV_002`) the label is reported. -/
theorem lockStatus_uav_label_truthiness_witness :
    ({ TargetLockSystem.init 1280 720 5 with
        current_target_id := some 0
        tracked_uavs := [(0, ⟨"UAV_001", 1, 2, 0⟩), (2, ⟨"UAV_002", 1, 2, 0⟩)]
      : TargetLockSystem }.get_lock_status.uav_id = none) ∧
    ({ TargetLockSystem.init 1280 720 5 with
        current_target_id := some 2
        tracked_uavs := [(0, ⟨"UAV_001", 1, 2, 0⟩), (2, ⟨"UAV_002", 1, 2, 0⟩)]
      : TargetLockSystem }.get_lock_status.uav_id = some "UAV_002") := by
  constructor
  · exact (lockStatus_uav_label_truthiness _ 0 ⟨"UAV_001", 1, 2, 0⟩).1
      rfl (by simp [dictGet])
  · exact (lockStatus_uav_label_truthiness _ 2 ⟨"UAV_002", 1, 2, 0⟩).2
      rfl (by norm_num) (by simp [dictGet])

/-! ## PID primitive (`camera_controller.py`) -/

/-- The state of `PIDController` (gains, output bounds, and mutable PID
state). -/
structure PIDController where
  kp : ℚ
  ki : ℚ
  kd : ℚ
  min_output : ℚ
  max_output : ℚ
  previous_error : ℚ
  integral : ℚ
  last_time : Option ℚ
deriving DecidableEq

/-- `PIDController.__init__`. -/
def PIDController.init (kp ki kd min_output max_output : ℚ) : PIDController where
  kp := kp
  ki := ki
  kd := kd
  min_output := min_output
  max_output := max_output
  previous_error := 0
  integral := 0
  last_time := none

/-- `PIDController.reset`. -/
def PIDController.reset (c : PIDController) : PIDController :=
  { c with previous_error := 0, integral := 0, last_time := none }

/-- `PIDController.compute` (the `current_time=None → time.time()` default is
the explicit `current_time` argument). Returns the output and the updated
controller. -/
def PIDController.compute (c : PIDController) (setpoint process_variable
    current_time : ℚ) : ℚ × PIDController :=
  match c.last_time with
  | none =>
    (0, { c with
      last_time := some current_time
      previous_error := setpoint - process_variable })
  | some last =>
    let dt := current_time - last
    if dt ≤ 0 then (0, c)
    else
      let error := setpoint - process_variable
      let integral := c.integral + error * dt
      let derivative := (error - c.previous_error) / dt
      let output := c.kp * error + c.ki * integral + c.kd * derivative
      let output := max c.min_output (min c.max_output output)
      (output, { c with
        integral := integral
        previous_error := error
        last_time := some current_time })

/-- C8: the first `compute` call after construction or after `reset` returns
0 for every setpoint/measurement (it only records the time baseline), and
any `compute` call whose time delta since the previous call is non-positive
returns 0 and leaves `integral`, `previous_error` and `last_time` exactly as
they were. -/
theorem pid_first_call_and_nonpositive_dt
    (kp ki kd lo hi sp pv t : ℚ) (c : PIDController) (last : ℚ) :
    ((PIDController.init kp ki kd lo hi).compute sp pv t).1 = 0 ∧
    (c.reset.compute sp pv t).1 = 0 ∧
    (c.last_time = some last → t - last ≤ 0 →
      c.compute sp pv t = (0, c)) := by
  refine ⟨rfl, rfl, ?_⟩
  intro hlast hdt
  simp [PIDController.compute, hlast, hdt]

/-- Witness for C8: a concrete controller whose previous call was at time 5
returns 0 on a call at time 5 (zero delta) with all state intact, and the
first call after construction returns 0. -/
theorem pid_first_call_and_nonpositive_dt_witness :
    ((PIDController.init (1/20) (1/100) (1/50) (-30) 30).compute 640 100 7).1
      = 0 ∧
    (PIDController.compute
      { kp := 1/20, ki := 1/100, kd := 1/50, min_output := -30,
        max_output := 30, previous_error := 4, integral := 9,
        last_time := some 5 } 640 100 5 =
      (0, { kp := 1/20, ki := 1/100, kd := 1/50, min_output := -30,
            max_output := 30, previous_error := 4, integral := 9,
            last_time := some 5 })) := by
  have h := pid_first_call_and_nonpositive_dt (1/20) (1/100) (1/50) (-30) 30
    640 100 7
    { kp := 1/20, ki := 1/100, kd := 1/50, min_output := -30,
      max_output := 30, previous_error := 4, integral := 9,
      last_time := some 5 } 5
  have h2 := pid_first_call_and_nonpositive_dt (1/20) (1/100) (1/50) (-30) 30
    640 100 5
    { kp := 1/20, ki := 1/100, kd := 1/50, min_output := -30,
      max_output := 30, previous_error := 4, integral := 9,
      last_time := some 5 } 5
  exact ⟨h.1, h2.2.2 rfl (by norm_num)⟩

/-! ## 3-vectors for the maneuver generators -/

/-- A 3-component vector (`np.array([x, y, z])` of the maneuver code). -/
structure Vec3 where
  x : ℚ
  y : ℚ
  z : ℚ
deriving DecidableEq

def Vec3.zero : Vec3 := ⟨0, 0, 0⟩

instance : Add Vec3 := ⟨fun a b => ⟨a.x + b.x, a.y + b.y, a.z + b.z⟩⟩

instance : Sub Vec3 := ⟨fun a b => ⟨a.x - b.x, a.y - b.y, a.z - b.z⟩⟩

instance : Neg Vec3 := ⟨fun a => ⟨-a.x, -a.y, -a.z⟩⟩

instance : SMul ℚ Vec3 := ⟨fun c v => ⟨c * v.x, c * v.y, c * v.z⟩⟩

/-- Componentwise division by a scalar (`v / c` on numpy arrays). -/
def Vec3.sdiv (v : Vec3) (c : ℚ) : Vec3 := ⟨v.x / c, v.y / c, v.z / c⟩

/-- Sum of squared components: `np.linalg.norm v = sq (v.normSq)` for the
square-root oracle `sq`. -/
def Vec3.normSq (v : Vec3) : ℚ := v.x ^ 2 + v.y ^ 2 + v.z ^ 2

@[simp] theorem Vec3.sub_self_eq (v : Vec3) : v - v = Vec3.zero := by
  show (⟨v.x - v.x, v.y - v.y, v.z - v.z⟩ : Vec3) = Vec3.zero
  simp [Vec3.zero]

@[simp] theorem Vec3.normSq_zero : Vec3.zero.normSq = 0 := by
  simp [Vec3.normSq, Vec3.zero]

@[simp] theorem Vec3.smul_zero_vec (c : ℚ) : c • Vec3.zero = Vec3.zero := by
  show (⟨c * 0, c * 0, c * 0⟩ : Vec3) = Vec3.zero
  simp [Vec3.zero]

@[simp] theorem Vec3.sdiv_zero_vec (c : ℚ) : Vec3.zero.sdiv c = Vec3.zero := by
  simp [Vec3.sdiv, Vec3.zero]

/-! ## Escape maneuver math (`escape_controller.py`) -/

/-- `EscapeController.calculate_escape_vector`. The wall-clock dither
`np.sin(time.time() * 2)` is the `sin2t` argument, and the persisted /
resampled perpendicular sign `self.last_perp` is the `last_perp` argument
(the random resampling draws are external inputs of the embedding); `sq` is
the square-root oracle for `np.linalg.norm`. -/
def calculate_escape_vector (sq : ℚ → ℚ) (sin2t last_perp : ℚ)
    (min_altitude max_altitude escape_speed : ℚ)
    (our_position enemy_position : Vec3) : Vec3 :=
  let direction := our_position - enemy_position
  let distance := sq direction.normSq
  if 0 < distance then
    let direction := direction.sdiv distance
    let perp : Vec3 := ⟨-direction.y, direction.x, 0⟩
    let direction := (3/5 : ℚ) • direction + (2/5 : ℚ) • (last_perp • perp)
    let direction :=
      if our_position.z < min_altitude then { direction with z := 2/5 }
      else if max_altitude < our_position.z then { direction with z := -(2/5) }
      else { direction with z := (1/5) * sin2t }
    let direction := direction.sdiv (sq direction.normSq)
    (escape_speed * (3/2)) • direction
  else Vec3.zero

/-! ## Kamikaze dive math (`kamikaze_controller.py`) -/

/-- `KamikazeController.calculate_dive_path`; `sin_dive` is
`np.sin(np.radians(self.dive_angle))` and `sq` the square-root oracle. -/
def calculate_dive_path (sq : ℚ → ℚ) (sin_dive : ℚ)
    (our_position target_position : Vec3) : Vec3 :=
  let direction := target_position - our_position
  let distance := sq direction.normSq
  if 0 < distance then
    let direction := direction.sdiv distance
    let movement_vector : Vec3 := ⟨direction.x, direction.y, -sin_dive⟩
    movement_vector.sdiv (sq movement_vector.normSq)
  else Vec3.zero

/-! ## No-fly zones (`no_fly_zone_controller.py`) -/

/-- `ZoneType` enum. -/
inductive ZoneType where
  | AIR_DEFENSE
  | SIGNAL_JAMMING
deriving DecidableEq, Repr

/-- `NoFlyZone` dataclass. -/
structure NoFlyZone where
  zone_id : String
  zone_type : ZoneType
  center : ℚ × ℚ × ℚ
  radius : ℚ
  activation_time : ℚ
  is_active : Bool := false
  total_violation_time : ℚ := 0
  last_violation_check : Option ℚ := none
deriving DecidableEq

/-- The mutable state of `NoFlyZoneController` (the violation-history list is
write-only in the source and omitted). -/
structure NoFlyZoneController where
  zones : List (String × NoFlyZone)
  penalty_points_per_second : ℚ
  max_violation_time : ℚ
  safety_margin : ℚ
  total_penalty_points : ℚ
  current_violations : List String
deriving DecidableEq

/-- `NoFlyZoneController.__init__`. -/
def NoFlyZoneController.init (penalty_points_per_second max_violation_time
    safety_margin : ℚ) : NoFlyZoneController where
  zones := []
  penalty_points_per_second := penalty_points_per_second
  max_violation_time := max_violation_time
  safety_margin := safety_margin
  total_penalty_points := 0
  current_violations := []

/-- `NoFlyZoneController.is_point_in_zone`: 2-D distance from zone center at
most the radius (`sq` is the square-root oracle for `np.sqrt`). -/
def isPointInZone (sq : ℚ → ℚ) (point : Vec3) (zone : NoFlyZone) : Bool :=
  sq ((point.x - zone.center.1) ^ 2 + (point.y - zone.center.2.1) ^ 2) ≤
    zone.radius

/-- The per-zone body of the loop of `calculate_avoidance_vector` (lines
130–158): accumulate the repulsion vector, the total influence and the
violated-zone ids across one zone. -/
def avoidZoneStep (sq : ℚ → ℚ) (safety_margin : ℚ) (current_pos : Vec3)
    (acc : Vec3 × ℚ × List String) (entry : String × NoFlyZone) :
    Vec3 × ℚ × List String :=
  let zone := entry.2
  if zone.is_active = false then acc
  else
    let to_center : Vec3 :=
      { x := zone.center.1 - current_pos.x
        y := zone.center.2.1 - current_pos.y
        z := 0 }
    let distance := sq (to_center.x ^ 2 + to_center.y ^ 2)
    let extended_range := zone.radius + safety_margin
    if distance ≤ extended_range then
      let acc :=
        if 0 < distance then
          let direction := (-to_center).sdiv (sq to_center.normSq)
          let direction := { direction with z := (0:ℚ) }
          let strength := 1 - distance / extended_range
          (acc.1 + strength • direction, acc.2.1 + strength, acc.2.2)
        else acc
      if distance ≤ zone.radius then (acc.1, acc.2.1, acc.2.2 ++ [entry.1])
      else acc
    else acc

/-- `np.any(v)`: some component is nonzero. -/
def npAny (v : Vec3) : Bool := v.x ≠ 0 ∨ v.y ≠ 0 ∨ v.z ≠ 0

/-- `NoFlyZoneController.calculate_avoidance_vector`: potential-field sum
over the active zones, then influence-averaging, optional 50/50 blend toward
a target, and final unit normalization. -/
def NoFlyZoneController.calculate_avoidance_vector (s : NoFlyZoneController)
    (sq : ℚ → ℚ) (current_pos current_vel : Vec3)
    (target_pos : Option Vec3) : Vec3 × List String :=
  let acc := s.zones.foldl (avoidZoneStep sq s.safety_margin current_pos)
    (Vec3.zero, 0, [])
  let avoidance_vector := acc.1
  let total_influence := acc.2.1
  let avoidance_vector :=
    if 0 < total_influence then avoidance_vector.sdiv total_influence
    else avoidance_vector
  let avoidance_vector :=
    match target_pos with
    | none => avoidance_vector
    | some tp =>
      if npAny avoidance_vector then
        let to_target : Vec3 :=
          { x := tp.x - current_pos.x, y := tp.y - current_pos.y, z := 0 }
        let distance_to_target := sq (to_target.x ^ 2 + to_target.y ^ 2)
        if 0 < distance_to_target then
          (1/2 : ℚ) • avoidance_vector +
            (1/2 : ℚ) • (to_target.sdiv (sq to_target.normSq))
        else avoidance_vector
      else avoidance_vector
  let magnitude := sq avoidance_vector.normSq
  let avoidance_vector :=
    if 0 < magnitude then avoidance_vector.sdiv magnitude
    else avoidance_vector
  (avoidance_vector, acc.2.2)

/-- The per-zone body of `NoFlyZoneController.update` (lines 197–221):
returns the updated zone together with the wall-clock delta accrued on this
check (`0` on a fresh entry or outside the zone). -/
def nfzZoneCheck (sq : ℚ → ℚ) (current_pos : Vec3) (now : ℚ)
    (zone : NoFlyZone) : NoFlyZone × ℚ :=
  if zone.is_active = false then (zone, 0)
  else if isPointInZone sq current_pos zone then
    match zone.last_violation_check with
    | none => ({ zone with last_violation_check := some now }, 0)
    | some last =>
      let time_delta := now - last
      ({ zone with
          total_violation_time := zone.total_violation_time + time_delta
          last_violation_check := some now }, time_delta)
  else
    ({ zone with last_violation_check := none }, 0)

/-- Python `max(gen, default=0.0)`. -/
def pyMaxD (l : List ℚ) (d : ℚ) : ℚ :=
  match l with
  | [] => d
  | x :: xs => xs.foldl max x

/-- The dict returned by `NoFlyZoneController.update`. -/
structure NfzStatus where
  in_violation : Bool
  violated_zones : List String
  total_penalty_points : ℚ
  max_violation_time : ℚ
  emergency_landing_required : Bool
deriving DecidableEq

/-- `NoFlyZoneController.update`: per-zone violation accounting (active zones
only; inactive zones are skipped, also by the violation set), penalty
accrual at `penalty_points_per_second`, and the emergency flag once any
zone's accumulated violation time reaches `max_violation_time`. -/
def NoFlyZoneController.update (s : NoFlyZoneController) (sq : ℚ → ℚ)
    (current_pos : Vec3) (now : ℚ) : NfzStatus × NoFlyZoneController :=
  let zones' := s.zones.map fun p =>
    (p.1, (nfzZoneCheck sq current_pos now p.2).1)
  let delta_sum := (s.zones.map fun p =>
    (nfzZoneCheck sq current_pos now p.2).2).foldl (· + ·) 0
  let new_violations := s.zones.foldl (fun acc p =>
    if p.2.is_active ∧ isPointInZone sq current_pos p.2 then acc ++ [p.1]
    else acc) []
  let total_penalty := s.total_penalty_points +
    delta_sum * s.penalty_points_per_second
  let max_violation := pyMaxD (zones'.map fun p => p.2.total_violation_time) 0
  let s' := { s with
    zones := zones'
    total_penalty_points := total_penalty
    current_violations := new_violations }
  ({ in_violation := decide (new_violations ≠ [])
     violated_zones := new_violations
     total_penalty_points := total_penalty
     max_violation_time := max_violation
     emergency_landing_required := decide (s.max_violation_time ≤ max_violation) },
   s')

@[simp] theorem npAny_zero : npAny Vec3.zero = false := by
  simp [npAny, Vec3.zero]

/-- C7: every zero-length normalization short-circuits to the zero vector
instead of dividing by zero — own position equal to the threat position in
the escape-vector computation, own position equal to the target position in
the kamikaze dive-path computation, and zero accumulated repulsion in the
avoidance computation (the square-root oracle standing for `np.linalg.norm`
need only send `0` to `0`, as the norm of a zero vector is `0.0`). -/
theorem maneuver_zero_vector_guard (sq : ℚ → ℚ) (hsq : sq 0 = 0)
    (sin2t last_perp min_altitude max_altitude escape_speed sin_dive : ℚ)
    (p q : Vec3) (s : NoFlyZoneController) (pos vel : Vec3)
    (tp : Option Vec3) :
    calculate_escape_vector sq sin2t last_perp min_altitude max_altitude
      escape_speed p p = Vec3.zero ∧
    calculate_dive_path sq sin_dive q q = Vec3.zero ∧
    ((s.zones.foldl (avoidZoneStep sq s.safety_margin pos)
        (Vec3.zero, 0, [])).1 = Vec3.zero →
      (s.calculate_avoidance_vector sq pos vel tp).1 = Vec3.zero) := by
  refine ⟨?_, ?_, ?_⟩
  · simp [calculate_escape_vector, hsq]
  · simp [calculate_dive_path, hsq]
  · intro hacc
    cases tp <;>
      simp [NoFlyZoneController.calculate_avoidance_vector, hacc, hsq]

/-- Witness for C7: concrete coincident positions and a zone-free controller
(whose accumulated repulsion is the zero vector), with the oracle
instantiated as the constant-zero function. -/
theorem maneuver_zero_vector_guard_witness :
    calculate_escape_vector (fun _ => 0) (1/2) 1 50 100 2 ⟨3, 4, 60⟩ ⟨3, 4, 60⟩
      = Vec3.zero ∧
    calculate_dive_path (fun _ => 0) (7/10) ⟨3, 4, 60⟩ ⟨3, 4, 60⟩ = Vec3.zero ∧
    ((NoFlyZoneController.init 5 30 3).calculate_avoidance_vector (fun _ => 0)
      ⟨3, 4, 60⟩ ⟨1, 0, 0⟩ (some ⟨9, 9, 0⟩)).1 = Vec3.zero := by
  have h := maneuver_zero_vector_guard (fun _ => 0) rfl (1/2) 1 50 100 2 (7/10)
    ⟨3, 4, 60⟩ ⟨3, 4, 60⟩ (NoFlyZoneController.init 5 30 3) ⟨3, 4, 60⟩
    ⟨1, 0, 0⟩ (some ⟨9, 9, 0⟩)
  exact ⟨h.1, h.2.1, h.2.2 rfl⟩

theorem le_foldl_max (c : ℚ) :
    ∀ (xs : List ℚ) (a : ℚ),
      c ≤ xs.foldl max a ↔ c ≤ a ∨ ∃ x ∈ xs, c ≤ x := by
  intro xs
  induction xs with
  | nil => intro a; simp
  | cons y ys ih =>
    intro a
    rw [List.foldl_cons, ih (max a y), le_max_iff]
    simp [List.mem_cons, or_assoc]

theorem le_pyMaxD_iff (l : List ℚ) (c : ℚ) (hc : 0 < c) :
    c ≤ pyMaxD l 0 ↔ ∃ x ∈ l, c ≤ x := by
  cases l with
  | nil => simp [pyMaxD]; linarith
  | cons x xs =>
    show c ≤ xs.foldl max x ↔ _
    rw [le_foldl_max]
    simp [List.mem_cons]

/-- C9: no-fly-zone violation accounting. For an active zone: while the
in-zone test holds (in particular whenever the position is strictly inside
the radius), a check with a recorded previous check time adds the elapsed
time to the zone's violation total (and, in `update`, elapsed × penalty rate
to the running total penalty), and a check without one only records the
baseline; a check with the position outside clears the zone's last-check
timestamp so a later re-entry starts fresh without counting the gap; and
`update` reports `emergency_landing_required` exactly when some zone's
accumulated violation time has reached `max_violation_time`. -/
theorem nfz_violation_accounting (sq : ℚ → ℚ) (pos : Vec3) (now t0 : ℚ)
    (z : NoFlyZone) (s : NoFlyZoneController) :
    (z.is_active = true → isPointInZone sq pos z = true →
      z.last_violation_check = some t0 →
      nfzZoneCheck sq pos now z =
        ({ z with
            total_violation_time := z.total_violation_time + (now - t0)
            last_violation_check := some now }, now - t0)) ∧
    (z.is_active = true → isPointInZone sq pos z = true →
      z.last_violation_check = none →
      nfzZoneCheck sq pos now z =
        ({ z with last_violation_check := some now }, 0)) ∧
    (z.is_active = true → isPointInZone sq pos z = false →
      nfzZoneCheck sq pos now z =
        ({ z with last_violation_check := none }, 0)) ∧
    ((s.update sq pos now).1.total_penalty_points =
      s.total_penalty_points +
        ((s.zones.map fun p => (nfzZoneCheck sq pos now p.2).2).foldl
          (· + ·) 0) * s.penalty_points_per_second) ∧
    (0 < s.max_violation_time →
      ((s.update sq pos now).1.emergency_landing_required = true ↔
        ∃ p ∈ s.zones, s.max_violation_time ≤
          (nfzZoneCheck sq pos now p.2).1.total_violation_time)) := by
  refine ⟨?_, ?_, ?_, ?_, ?_⟩
  · intro hact hin hlast
    simp [nfzZoneCheck, hact, hin, hlast]
  · intro hact hin hlast
    simp [nfzZoneCheck, hact, hin, hlast]
  · intro hact hout
    simp [nfzZoneCheck, hact, hout]
  · rfl
  · intro hpos
    simp only [NoFlyZoneController.update, decide_eq_true_eq, List.map_map]
    rw [le_pyMaxD_iff _ _ hpos]
    simp only [List.mem_map, Function.comp]
    constructor
    · rintro ⟨x, ⟨p, hmem, hfx⟩, hcx⟩
      exact ⟨p, hmem, by rw [hfx]; exact hcx⟩
    · rintro ⟨p, hmem, hcb⟩
      exact ⟨_, ⟨p, hmem, rfl⟩, hcb⟩

/-- Witness for C9: one active zone of radius 50 centered at the origin with
a previous check at time 2 and 1 s already accrued; a check at time 7 from
30 units out (inside) adds 5 s and 25 penalty points at rate 5, pushes the
total past the 3 s limit and raises the emergency flag; from 100 units out
(outside) it clears the timestamp. The oracle gives the exact roots of the
two squared distances involved. -/
theorem nfz_violation_accounting_witness :
    let sq : ℚ → ℚ := fun x => if x = 900 then 30 else 100
    let z : NoFlyZone :=
      { zone_id := "z1", zone_type := .AIR_DEFENSE, center := (0, 0, 0),
        radius := 50, activation_time := 1, is_active := true,
        total_violation_time := 1, last_violation_check := some 2 }
    let s : NoFlyZoneController :=
      { zones := [("z1", z)], penalty_points_per_second := 5,
        max_violation_time := 3, safety_margin := 3,
        total_penalty_points := 0, current_violations := [] }
    (nfzZoneCheck sq ⟨30, 0, 0⟩ 7 z =
      ({ z with total_violation_time := 6, last_violation_check := some 7 },
        5)) ∧
    (nfzZoneCheck sq ⟨100, 0, 0⟩ 7 z =
      ({ z with last_violation_check := none }, 0)) ∧
    (s.update sq ⟨30, 0, 0⟩ 7).1.total_penalty_points = 25 ∧
    (s.update sq ⟨30, 0, 0⟩ 7).1.emergency_landing_required = true := by
  intro sq z s
  have h1 := nfz_violation_accounting sq ⟨30, 0, 0⟩ 7 2 z s
  have h2 := nfz_violation_accounting sq ⟨100, 0, 0⟩ 7 2 z s
  refine ⟨?_, ?_, ?_, ?_⟩
  · rw [h1.1 rfl (by norm_num [isPointInZone, sq, z]) rfl]
    norm_num
  · exact h2.2.2.1 rfl (by norm_num [isPointInZone, sq, z])
  · rw [h1.2.2.2.1]
    norm_num [nfzZoneCheck, isPointInZone, sq, z, s]
  · rw [(h1.2.2.2.2 (by norm_num [s]))]
    refine ⟨("z1", z), by simp [s], ?_⟩
    norm_num [nfzZoneCheck, isPointInZone, sq, z]

/-! ## Kalman multi-object tracker (`kalman_tracker.py`) -/

/-- State transition matrix of `_create_kalman_filter` (constant velocity,
`dt = 1/30`). -/
def kfTransition : Matrix (Fin 6) (Fin 6) ℚ :=
  Matrix.of fun i j =>
    if j = i then 1 else if (j : ℕ) = (i : ℕ) + 3 then 1/30 else 0

/-- Measurement matrix (only the x/y positions are observed). -/
def kfMeasurement : Matrix (Fin 2) (Fin 6) ℚ :=
  Matrix.of fun i j => if (j : ℕ) = (i : ℕ) then 1 else 0

/-- `processNoiseCov = 1e-3 * eye(6)`. -/
def kfProcessNoise : Matrix (Fin 6) (Fin 6) ℚ := (1/1000 : ℚ) • 1

/-- `measurementNoiseCov = 1e-4 * eye(2)`. -/
def kfMeasureNoise : Matrix (Fin 2) (Fin 2) ℚ := (1/10000 : ℚ) • 1

/-- The mutable state of a `cv2.KalmanFilter(6, 2)` (state and covariance;
`cv2` zero-initializes all four). -/
structure KalmanFilterQ where
  statePre : Fin 6 → ℚ
  statePost : Fin 6 → ℚ
  errorCovPre : Matrix (Fin 6) (Fin 6) ℚ
  errorCovPost : Matrix (Fin 6) (Fin 6) ℚ

/-- `_create_kalman_filter` (the constant matrices live in the `kf...` defs
above). -/
def KalmanFilterQ.create : KalmanFilterQ :=
  ⟨fun _ => 0, fun _ => 0, 0, 0⟩

/-- `cv2.KalmanFilter.predict` with no control: advance the state by the
transition matrix, inflate the covariance by the process noise, and copy the
predictions onto the corrected slots; returns the predicted state. -/
def KalmanFilterQ.predict (kf : KalmanFilterQ) : (Fin 6 → ℚ) × KalmanFilterQ :=
  let statePre := kfTransition.mulVec kf.statePost
  let errorCovPre :=
    kfTransition * kf.errorCovPost * kfTransition.transpose + kfProcessNoise
  (statePre,
   { statePre := statePre, statePost := statePre,
     errorCovPre := errorCovPre, errorCovPost := errorCovPre })

/-- Inverse of a 2×2 matrix (zero on a singular input; the innovation
covariance inverted by `cv2.KalmanFilter.correct` is nonsingular since the
measurement noise is positive definite). -/
def inv2 (M : Matrix (Fin 2) (Fin 2) ℚ) : Matrix (Fin 2) (Fin 2) ℚ :=
  let det := M 0 0 * M 1 1 - M 0 1 * M 1 0
  if det = 0 then 0
  else Matrix.of fun i j =>
    (1/det) * (if i = 0 ∧ j = 0 then M 1 1
      else if i = 0 ∧ j = 1 then -(M 0 1)
      else if i = 1 ∧ j = 0 then -(M 1 0)
      else M 0 0)

/-- `cv2.KalmanFilter.correct`: Kalman gain from the innovation covariance,
then update the corrected state and covariance. -/
def KalmanFilterQ.correct (kf : KalmanFilterQ) (z : Fin 2 → ℚ) :
    KalmanFilterQ :=
  let temp2 := kfMeasurement * kf.errorCovPre
  let temp3 := temp2 * kfMeasurement.transpose + kfMeasureNoise
  let gain := (inv2 temp3 * temp2).transpose
  let innovation := fun i => z i - kfMeasurement.mulVec kf.statePre i
  { kf with
    statePost := fun i => kf.statePre i + gain.mulVec innovation i
    errorCovPost := kf.errorCovPre - gain * temp2 }

/-- One detection record handed to `KalmanTracker.update` (its centroid is
derived from the bbox inside `update`). -/
structure Detection where
  bbox : ℚ × ℚ × ℚ × ℚ
  confidence : ℚ
deriving DecidableEq

/-- The mutable state of `KalmanTracker`: `objects` maps track ids to
`(centroid, kalman_filter)` pairs, `disappeared` counts frames since the
last detection. -/
structure KalmanTracker where
  next_object_id : Nat
  objects : List (Nat × ((ℚ × ℚ) × KalmanFilterQ))
  disappeared : List (Nat × Nat)
  max_disappeared : Nat
  max_distance : ℚ

/-- `KalmanTracker.__init__` (defaults 60 and 100.0). -/
def KalmanTracker.init (max_disappeared : Nat) (max_distance : ℚ) :
    KalmanTracker :=
  ⟨0, [], [], max_disappeared, max_distance⟩

/-- `KalmanTracker.register`: new object under the next sequential id. -/
def KalmanTracker.register (s : KalmanTracker) (centroid : ℚ × ℚ) :
    KalmanTracker :=
  { s with
    objects := s.objects ++ [(s.next_object_id, (centroid, KalmanFilterQ.create))]
    disappeared := s.disappeared ++ [(s.next_object_id, 0)]
    next_object_id := s.next_object_id + 1 }

/-- `KalmanTracker.deregister`. -/
def KalmanTracker.deregister (s : KalmanTracker) (object_id : Nat) :
    KalmanTracker :=
  { s with
    objects := dictDel s.objects object_id
    disappeared := dictDel s.disappeared object_id }

/-- First index attaining the minimum of a list (`np.argmin`). -/
def argminList (l : List ℚ) : Nat :=
  (l.foldl (fun acc v =>
    if v < acc.2.1 then (acc.2.2, v, acc.2.2 + 1)
    else (acc.1, acc.2.1, acc.2.2 + 1))
    (0, l.headD 0, 0)).1

/-- Minimum of a (nonempty) list, with default for the vacuous case
(`D.min(axis=1)` is only taken with at least one detection column). -/
def pyMinList (l : List ℚ) : ℚ :=
  match l with
  | [] => 0
  | x :: xs => xs.foldl min x

/-- Insert index `i` into an index list sorted by `keys`, after any equal
keys (stable). -/
def insertByKey (keys : List ℚ) (i : Nat) : List Nat → List Nat
  | [] => [i]
  | j :: rest =>
    if keys.getD j 0 ≤ keys.getD i 0 then j :: insertByKey keys i rest
    else i :: j :: rest

/-- `np.argsort` over the row keys (stable insertion sort; ties keep the
original row order). -/
def argsortByKey (keys : List ℚ) : List Nat :=
  (List.range keys.length).foldl (fun acc i => insertByKey keys i acc) []

/-- `KalmanTracker.update`. `sq` is the square-root oracle standing for the
Euclidean metric of `scipy.spatial.distance.cdist`. Returns the
`tracked_objects` dict (in insertion order) and the updated tracker.

Branches exactly as the source: no detections → age/deregister all tracks
and report filter predictions; no existing tracks → register every
detection, keyed in the returned dict by its *enumeration index* `i`
(while `register` hands out ids from `next_object_id`); otherwise greedy
nearest-neighbor assignment over the distance matrix with used-row/column
and `max_distance` skipping, then aging of unmatched tracks and
registration of unmatched detections (these keyed by the real new id
`next_object_id - 1`). -/
def KalmanTracker.update (s : KalmanTracker) (sq : ℚ → ℚ)
    (detections : List Detection) : List (Nat × TrackedObj) × KalmanTracker :=
  let detection_list : List TrackedObj := detections.map fun det =>
    { centroid := ((det.bbox.1 + det.bbox.2.2.1) / 2,
                   (det.bbox.2.1 + det.bbox.2.2.2) / 2)
      bbox := det.bbox
      confidence := det.confidence }
  if detection_list.length = 0 then
    -- mark every object disappeared, deregister the stale ones
    let s := (s.disappeared.map Prod.fst).foldl (fun st object_id =>
      let n := (dictGet st.disappeared object_id).getD 0 + 1
      let st := { st with disappeared := dictSet st.disappeared object_id n }
      if st.max_disappeared < n then st.deregister object_id else st) s
    -- report the surviving objects at their predicted positions
    let results := s.objects.map fun p =>
      let pr := p.2.2.predict
      ((p.1, (p.2.1, pr.2)),
       (p.1, ({ centroid := (pr.1 0, pr.1 1)
                bbox := (pr.1 0 - 50, pr.1 1 - 50, pr.1 0 + 50, pr.1 1 + 50)
                confidence := 1/2 } : TrackedObj)))
    (results.map Prod.snd, { s with objects := results.map Prod.fst })
  else if s.objects.length = 0 then
    -- register all detections; the returned dict is keyed by the
    -- enumeration index, not by the id `register` just assigned
    let folded := detection_list.foldl
      (fun (acc : KalmanTracker × List (Nat × TrackedObj) × Nat) det =>
        (acc.1.register det.centroid,
         acc.2.1 ++ [(acc.2.2, det)],
         acc.2.2 + 1))
      (s, [], 0)
    (folded.2.1, folded.1)
  else
    let object_ids := s.objects.map Prod.fst
    let object_centroids := s.objects.map fun p => p.2.1
    let detection_centroids := detection_list.map TrackedObj.centroid
    let dist := fun (i j : Nat) =>
      let oc := object_centroids.getD i (0, 0)
      let dc := detection_centroids.getD j (0, 0)
      sq ((oc.1 - dc.1) ^ 2 + (oc.2 - dc.2) ^ 2)
    let nRows := object_centroids.length
    let nCols := detection_centroids.length
    let rows := argsortByKey ((List.range nRows).map fun i =>
      pyMinList ((List.range nCols).map fun j => dist i j))
    let cols := rows.map fun i =>
      argminList ((List.range nCols).map fun j => dist i j)
    -- greedy assignment pass
    let pass := (rows.zip cols).foldl
      (fun (acc : KalmanTracker × List (Nat × TrackedObj) × List Nat × List Nat)
          rc =>
        let (st, tracked, used_rows, used_cols) := acc
        if rc.1 ∈ used_rows ∨ rc.2 ∈ used_cols then acc
        else if st.max_distance < dist rc.1 rc.2 then acc
        else
          let object_id := object_ids.getD rc.1 0
          let det := detection_list.getD rc.2
            { centroid := (0, 0), bbox := (0, 0, 0, 0), confidence := 0 }
          let centroid := det.centroid
          let kf := ((dictGet st.objects object_id).getD
            (((0, 0) : ℚ × ℚ), KalmanFilterQ.create)).2
          let pr := kf.predict
          let kf := pr.2.correct fun i => if i = 0 then centroid.1 else centroid.2
          let predicted_centroid := (pr.1 0, pr.1 1)
          let st := { st with
            objects := dictSet st.objects object_id (predicted_centroid, kf)
            disappeared := dictSet st.disappeared object_id 0 }
          (st,
           tracked ++ [(object_id,
             { centroid := predicted_centroid, bbox := det.bbox,
               confidence := det.confidence })],
           used_rows ++ [rc.1], used_cols ++ [rc.2]))
      (s, [], [], [])
    let (s, tracked, used_rows, used_cols) := pass
    -- age or predict the unmatched existing objects
    let pass2 := ((List.range nRows).filter (· ∉ used_rows)).foldl
      (fun (acc : KalmanTracker × List (Nat × TrackedObj)) row =>
        let (st, tracked) := acc
        let object_id := object_ids.getD row 0
        let n := (dictGet st.disappeared object_id).getD 0 + 1
        let st := { st with disappeared := dictSet st.disappeared object_id n }
        if st.max_disappeared < n then (st.deregister object_id, tracked)
        else
          let kf := ((dictGet st.objects object_id).getD
            (((0, 0) : ℚ × ℚ), KalmanFilterQ.create)).2
          let pr := kf.predict
          let predicted_centroid := (pr.1 0, pr.1 1)
          let st := { st with
            objects := dictSet st.objects object_id (predicted_centroid, pr.2) }
          (st, tracked ++ [(object_id,
            { centroid := predicted_centroid
              bbox := (pr.1 0 - 50, pr.1 1 - 50, pr.1 0 + 50, pr.1 1 + 50)
              confidence := 1/2 })]))
      (s, tracked)
    let (s, tracked) := pass2
    -- register the unmatched detections under fresh ids
    let pass3 := ((List.range nCols).filter (· ∉ used_cols)).foldl
      (fun (acc : KalmanTracker × List (Nat × TrackedObj)) col =>
        let (st, tracked) := acc
        let det := detection_list.getD col
          { centroid := (0, 0), bbox := (0, 0, 0, 0), confidence := 0 }
        let st := st.register det.centroid
        let new_id := st.next_object_id - 1
        (st, tracked ++ [(new_id, det)]))
      (s, tracked)
    (pass3.2, pass3.1)

set_option maxHeartbeats 1000000

/-- C5 (evidence for the code bug): after an earlier track was created and
destroyed (`max_disappeared = 0`, one detection frame, one empty frame, so
`next_object_id = 1`), updating with one fresh detection registers the new
track under the sequential id 1 — but the returned mapping keys it by the
enumeration index 0 (`tracked_objects[i] = ...` in the no-existing-tracks
branch), contradicting both the docstring ("IDs as keys") and the sibling
branch, which keys new registrations by `next_object_id - 1`. -/
theorem tracker_newTrack_key_mismatch :
    (((((KalmanTracker.init 0 100).update (fun _ => 0)
          [{ bbox := (0, 0, 20, 20), confidence := 9/10 }]).2.update
          (fun _ => 0) []).2.update (fun _ => 0)
          [{ bbox := (0, 0, 20, 20), confidence := 9/10 }]).2.next_object_id
        = 2 ∧
     ((((KalmanTracker.init 0 100).update (fun _ => 0)
          [{ bbox := (0, 0, 20, 20), confidence := 9/10 }]).2.update
          (fun _ => 0) []).2.update (fun _ => 0)
          [{ bbox := (0, 0, 20, 20), confidence := 9/10 }]).2.objects.map
        Prod.fst = [1]) ∧
    ((((KalmanTracker.init 0 100).update (fun _ => 0)
          [{ bbox := (0, 0, 20, 20), confidence := 9/10 }]).2.update
          (fun _ => 0) []).2.update (fun _ => 0)
          [{ bbox := (0, 0, 20, 20), confidence := 9/10 }]).1 =
      [(0, { centroid := (10, 10), bbox := (0, 0, 20, 20),
             confidence := 9/10 })] := by
  have h1 : (KalmanTracker.init 0 100).update (fun _ => 0)
      [{ bbox := (0, 0, 20, 20), confidence := 9/10 }] =
      ([(0, { centroid := (10, 10), bbox := (0, 0, 20, 20),
              confidence := 9/10 })],
       { next_object_id := 1,
         objects := [(0, ((10, 10), KalmanFilterQ.create))],
         disappeared := [(0, 0)], max_disappeared := 0,
         max_distance := 100 }) := by
    norm_num [KalmanTracker.update, KalmanTracker.init, KalmanTracker.register]
  have h2 : KalmanTracker.update
      { next_object_id := 1,
        objects := [(0, ((10, 10), KalmanFilterQ.create))],
        disappeared := [(0, 0)], max_disappeared := 0, max_distance := 100 }
      (fun _ => 0) [] =
      ([], { next_object_id := 1, objects := [], disappeared := [],
             max_disappeared := 0, max_distance := 100 }) := by
    norm_num [KalmanTracker.update, KalmanTracker.deregister, dictGet,
      dictSet, dictDel]
  have h3 : KalmanTracker.update
      { next_object_id := 1, objects := [], disappeared := [],
        max_disappeared := 0, max_distance := 100 }
      (fun _ => 0) [{ bbox := (0, 0, 20, 20), confidence := 9/10 }] =
      ([(0, { centroid := (10, 10), bbox := (0, 0, 20, 20),
              confidence := 9/10 })],
       { next_object_id := 2,
         objects := [(1, ((10, 10), KalmanFilterQ.create))],
         disappeared := [(1, 0)], max_disappeared := 0,
         max_distance := 100 }) := by
    norm_num [KalmanTracker.update, KalmanTracker.register]
  simp only [h1, h2, h3]
  norm_num
